import Mathlib

/-!
Shallow embedding of the connection/session core of `src/main.py`
(`ConnectionManager` and the `websocket_endpoint` receive loop), together
with theorems settling the claims of the specification about it.

Modelling conventions:
* Python dicts become association lists over `String` keys with the
  dict operations `dictGet` (`d[k]` / `k in d`), `dictSet` (`d[k] = v`,
  replacing in place or appending), `dictDel` (`del d[k]`).
* A live `WebSocket` object is identified by a `Nat` channel id; the
  payloads the code sends become the closed inductive `Out`.
* External collaborators (the PostgreSQL store behind `save_message`,
  the contacts-table mutuality query, `get_username`, `datetime.now()`,
  the uuid suffix) are passed in as oracle parameters; the database is
  modelled as reachable, and `int(...)` conversions of identities as
  succeeding, since no claim concerns their failure.
* A handler that raises an uncaught exception (a missing dict field in
  the inbound event) is modelled as returning `none`; the outer
  `except Exception` handler is `handleError`, the
  `except WebSocketDisconnect` handler is `handleWsDisconnect`.
* Transport sends inside the handlers are modelled as succeeding; the
  failing branch of `ConnectionManager.send_json` is kept faithfully and
  is reachable through the `ok` parameter of `send_json`.  In
  `ConnectionManager.connect` the flush loop is modelled with succeeding
  sends: a mid-flush transport failure makes the Python `for` loop
  re-append to the very list being iterated, so the flush terminates
  only in the all-success case, which is the case embedded here.
* Alongside the successor state, each handler returns the list of
  `(recipient, event)` pairs it passed to a send, in call order: this is
  the delivery log the theorems speak about.
-/

namespace Site

/-- Outbound JSON payloads constructed by `main.py`; one constructor per
`type` tag the code sends, with the remaining fields of that dict. -/
inductive Out where
  | message (from_ : String) (message : String) (timestamp : String) (is_mutual : Bool)
  | notification (from_ : String) (message : String) (timestamp : String)
  | call_incoming (from_ : String) (call_id : String) (is_audio_only : Bool)
  | call_waiting (call_id : String) (to_ : String)
  | call_accepted (call_id : String) (by_ : String)
  | call_rejected (call_id : String) (by_ : String) (reason : String)
  | webrtc_offer (from_ : String) (call_id : String) (offer : String) (is_audio_only : Bool)
  | webrtc_answer (from_ : String) (call_id : String) (answer : String)
  | ice_candidate (from_ : String) (call_id : String) (candidate : String)
  | call_ended (call_id : String) (by_ : String)
  deriving DecidableEq

/-- An entry of `manager.pending_calls`: the dict
`{"from": ..., "to": ..., "status": ..., "timestamp": ...}`. -/
structure CallSession where
  from_ : String
  to_ : String
  status : String
  timestamp : String
  deriving DecidableEq

/-- The mutable state of the `ConnectionManager` instance `manager`:
`active_connections` maps a user id to its live websocket (a channel id
here), `pending_calls` maps a call id to its session dict,
`user_notifications` maps a user id to its offline event queue. -/
structure ManagerState where
  active_connections : List (String × Nat)
  pending_calls : List (String × CallSession)
  user_notifications : List (String × List Out)
  deriving DecidableEq

/-- The state of the freshly constructed `ConnectionManager`. -/
def initialState : ManagerState := ⟨[], [], []⟩

/-- Python dict lookup `d[k]` / membership `k in d` (as an `Option`). -/
def dictGet {α : Type} : List (String × α) → String → Option α
  | [], _ => none
  | p :: rest, k => if p.1 == k then some p.2 else dictGet rest k

/-- Python dict assignment `d[k] = v`: replaces the entry in place when
the key is present, otherwise appends, preserving insertion order. -/
def dictSet {α : Type} : List (String × α) → String → α → List (String × α)
  | [], k, v => [(k, v)]
  | p :: rest, k, v => if p.1 == k then (k, v) :: rest else p :: dictSet rest k v

/-- Python dict deletion `del d[k]` / `d.pop(k)` (key-unique dicts). -/
def dictDel {α : Type} (l : List (String × α)) (k : String) : List (String × α) :=
  l.filter (fun p => p.1 != k)

/-- The Python `s.split('_')` on the character list: it never returns an
empty list, splits at every underscore and keeps empty pieces. -/
def splitListAux : List Char → List Char → List (List Char)
  | [], acc => [acc.reverse]
  | c :: cs, acc =>
      if c = '_' then acc.reverse :: splitListAux cs []
      else splitListAux cs (c :: acc)

/-- The Python `call_id.split('_')`. -/
def pySplit (s : String) : List String :=
  (splitListAux s.data []).map String.mk

/-- `ConnectionManager.send_json(receiver_id, message)`.  `ok` is the
outcome of the transport-level `websocket.send_json` attempt: a live
entry with `ok = true` delivers and returns `True`; with `ok = false`
the `except` branch deletes the registry entry and returns `False`
without touching the queues; with no live entry the message is appended
to `user_notifications[receiver_id]` (created on demand). -/
def send_json (ok : Bool) (st : ManagerState) (receiver_id : String) (message : Out) :
    ManagerState × Bool :=
  match dictGet st.active_connections receiver_id with
  | some _ =>
      if ok then (st, true)
      else ({ st with active_connections := dictDel st.active_connections receiver_id }, false)
  | none =>
      let q := (dictGet st.user_notifications receiver_id).getD []
      ({ st with
          user_notifications := dictSet st.user_notifications receiver_id (q ++ [message]) },
        false)

/-- A handler-side `await manager.send_json(...)` with the transport
modelled as succeeding (only the state matters to the callers). -/
def deliver (st : ManagerState) (receiver_id : String) (message : Out) : ManagerState :=
  (send_json true st receiver_id message).1

/-- The flush loop of `ConnectionManager.connect`: sends each queued
notification through `send_json`, returning the final state and the
delivery log. -/
def flushQueue (user_id : String) : ManagerState → List Out → ManagerState × List (String × Out)
  | st, [] => (st, [])
  | st, n :: rest =>
      let st1 := deliver st user_id n
      let r := flushQueue user_id st1 rest
      (r.1, (user_id, n) :: r.2)

/-- `ConnectionManager.connect(websocket, user_id)`: registers the
channel (overwriting any prior entry), then, when the user has a queue,
sends every queued notification and resets the queue to the empty
list. -/
def connect (st : ManagerState) (websocket : Nat) (user_id : String) :
    ManagerState × List (String × Out) :=
  let st1 := { st with
    active_connections := dictSet st.active_connections user_id websocket }
  match dictGet st1.user_notifications user_id with
  | none => (st1, [])
  | some q =>
      let r := flushQueue user_id st1 q
      ({ r.1 with user_notifications := dictSet r.1.user_notifications user_id [] }, r.2)

/-- `ConnectionManager.disconnect(user_id)`: deletes the registry entry
when present — with no check of which channel the entry holds. -/
def disconnect (st : ManagerState) (user_id : String) : ManagerState :=
  if (dictGet st.active_connections user_id).isSome then
    { st with active_connections := dictDel st.active_connections user_id }
  else st

/-- The inbound JSON record `data` of one `websocket.receive_json()`.
Each field is `none` when the key is absent; `data["k"]` on an absent
key raises, which the handlers model with the `Option` monad. -/
structure Inbound where
  type : Option String := none
  to_ : Option String := none
  message : Option String := none
  call_id : Option String := none
  offer : Option String := none
  answer : Option String := none
  candidate : Option String := none
  is_audio_only : Option Bool := none
  deriving DecidableEq

/-- The `data["type"] == "message"` branch: `save_message` (external
store, its errors swallowed), the contacts-table mutuality query
(`mutualDb receiver sender`), the `message` event, and when not mutual
also a `notification` event built with `get_username` (`uname`). -/
def handleMessage (mutualDb : String → String → Bool) (uname : String → String)
    (now : String) (st : ManagerState) (user_id : String) (data : Inbound) :
    Option (ManagerState × List (String × Out)) := do
  let receiver_id ← data.to_
  let message_text ← data.message
  let is_mutual := mutualDb receiver_id user_id
  let msgEv := Out.message user_id message_text now is_mutual
  let st1 := deliver st receiver_id msgEv
  if is_mutual then
    pure (st1, [(receiver_id, msgEv)])
  else
    let notifEv := Out.notification user_id
      ("New message from #" ++ uname user_id ++ ": " ++ message_text) now
    pure (deliver st1 receiver_id notifEv, [(receiver_id, msgEv), (receiver_id, notifEv)])

/-- The `call_request` branch: mints
call id `user_id + "_" + data.to + "_" + suffix`, stores the session with
status `"waiting"`, sends `call_incoming` to the callee and replies
`call_waiting` straight back on the socket of the caller. -/
def handleCallRequest (now suffix : String) (st : ManagerState) (user_id : String)
    (data : Inbound) : Option (ManagerState × List (String × Out)) := do
  let to_ ← data.to_
  let call_id := user_id ++ "_" ++ to_ ++ "_" ++ suffix
  let st1 := { st with
    pending_calls := dictSet st.pending_calls call_id ⟨user_id, to_, "waiting", now⟩ }
  let incomingEv := Out.call_incoming user_id call_id true
  pure (deliver st1 to_ incomingEv,
    [(to_, incomingEv), (user_id, Out.call_waiting call_id to_)])

/-- The `call_accept` branch: when the session exists it is popped and
`call_accepted{call_id, by: user_id}` is sent to the stored initiator —
with no check that `user_id` is a participant of the call. -/
def handleCallAccept (st : ManagerState) (user_id : String) (data : Inbound) :
    Option (ManagerState × List (String × Out)) := do
  let call_id ← data.call_id
  match dictGet st.pending_calls call_id with
  | none => pure (st, [])
  | some call_data =>
      let st1 := { st with pending_calls := dictDel st.pending_calls call_id }
      let ev := Out.call_accepted call_id user_id
      pure (deliver st1 call_data.from_ ev, [(call_data.from_, ev)])

/-- The `call_reject` branch: same shape as `call_accept`, sending
`call_rejected` with the fixed reason string. -/
def handleCallReject (st : ManagerState) (user_id : String) (data : Inbound) :
    Option (ManagerState × List (String × Out)) := do
  let call_id ← data.call_id
  match dictGet st.pending_calls call_id with
  | none => pure (st, [])
  | some call_data =>
      let st1 := { st with pending_calls := dictDel st.pending_calls call_id }
      let ev := Out.call_rejected call_id user_id "Call rejected by recipient"
      pure (deliver st1 call_data.from_ ev, [(call_data.from_, ev)])

/-- The `webrtc_offer` branch: the guard
`call_id.split('_')[1] == user_id or call_id.split('_')[0] == user_id`
(the `[1]` access raises when the id has no underscore); on success the
offer is forwarded to `data["to"]`. -/
def handleWebrtcOffer (st : ManagerState) (user_id : String) (data : Inbound) :
    Option (ManagerState × List (String × Out)) := do
  let call_id ← data.call_id
  let parts := pySplit call_id
  let p1 ← parts.get? 1
  if p1 == user_id || parts.headD "" == user_id then do
    let to_ ← data.to_
    let offer ← data.offer
    let ev := Out.webrtc_offer user_id call_id offer (data.is_audio_only.getD true)
    pure (deliver st to_ ev, [(to_, ev)])
  else
    pure (st, [])

/-- The `webrtc_answer` branch: same participant guard, forwards the
answer. -/
def handleWebrtcAnswer (st : ManagerState) (user_id : String) (data : Inbound) :
    Option (ManagerState × List (String × Out)) := do
  let call_id ← data.call_id
  let parts := pySplit call_id
  let p1 ← parts.get? 1
  if p1 == user_id || parts.headD "" == user_id then do
    let to_ ← data.to_
    let answer ← data.answer
    let ev := Out.webrtc_answer user_id call_id answer
    pure (deliver st to_ ev, [(to_, ev)])
  else
    pure (st, [])

/-- The `ice_candidate` branch: same participant guard, forwards the
candidate. -/
def handleIceCandidate (st : ManagerState) (user_id : String) (data : Inbound) :
    Option (ManagerState × List (String × Out)) := do
  let call_id ← data.call_id
  let parts := pySplit call_id
  let p1 ← parts.get? 1
  if p1 == user_id || parts.headD "" == user_id then do
    let to_ ← data.to_
    let candidate ← data.candidate
    let ev := Out.ice_candidate user_id call_id candidate
    pure (deliver st to_ ev, [(to_, ev)])
  else
    pure (st, [])

/-- The `call_end` branch: the other participant is read off the split
call id (no membership check on the sender), `call_ended` is sent to it
and a matching pending session, if any, is popped. -/
def handleCallEnd (st : ManagerState) (user_id : String) (data : Inbound) :
    Option (ManagerState × List (String × Out)) := do
  let call_id ← data.call_id
  let parts := pySplit call_id
  let p1 ← parts.get? 1
  let other_user := if p1 == user_id then parts.headD "" else p1
  let ev := Out.call_ended call_id user_id
  let st1 := deliver st other_user ev
  let st2 :=
    if (dictGet st1.pending_calls call_id).isSome then
      { st1 with pending_calls := dictDel st1.pending_calls call_id }
    else st1
  pure (st2, [(other_user, ev)])

/-- One iteration of the `websocket_endpoint` receive loop: dispatch on
`data["type"]` through the `elif` chain; an unknown tag falls off the
end and is ignored.  `none` models an exception escaping the loop body
into the outer `except Exception` handler. -/
def processEvent (mutualDb : String → String → Bool) (uname : String → String)
    (now suffix : String) (st : ManagerState) (user_id : String) (data : Inbound) :
    Option (ManagerState × List (String × Out)) := do
  let ty ← data.type
  if ty == "message" then handleMessage mutualDb uname now st user_id data
  else if ty == "call_request" then handleCallRequest now suffix st user_id data
  else if ty == "call_accept" then handleCallAccept st user_id data
  else if ty == "call_reject" then handleCallReject st user_id data
  else if ty == "webrtc_offer" then handleWebrtcOffer st user_id data
  else if ty == "webrtc_answer" then handleWebrtcAnswer st user_id data
  else if ty == "ice_candidate" then handleIceCandidate st user_id data
  else if ty == "call_end" then handleCallEnd st user_id data
  else pure (st, [])

/-- The `except Exception` teardown path: `manager.disconnect(user_id)`
then `websocket.close()` — no sweep of the pending calls. -/
def handleError (st : ManagerState) (user_id : String) : ManagerState :=
  disconnect st user_id

/-- The sweep loop of the `except WebSocketDisconnect` handler, over a
snapshot (`list(manager.pending_calls.items())`): each session initiated
by `user_id` gets one `call_rejected{..., reason: "Caller disconnected"}`
to its callee and is popped. -/
def sweepCalls (user_id : String) :
    ManagerState → List (String × CallSession) → ManagerState × List (String × Out)
  | st, [] => (st, [])
  | st, (call_id, call_data) :: rest =>
      if call_data.from_ == user_id then
        let ev := Out.call_rejected call_id user_id "Caller disconnected"
        let st1 := deliver st call_data.to_ ev
        let st2 := { st1 with pending_calls := dictDel st1.pending_calls call_id }
        let r := sweepCalls user_id st2 rest
        (r.1, (call_data.to_, ev) :: r.2)
      else
        sweepCalls user_id st rest

/-- The `except WebSocketDisconnect` handler: unregister, then sweep the
pending calls initiated by the departing user. -/
def handleWsDisconnect (st : ManagerState) (user_id : String) :
    ManagerState × List (String × Out) :=
  let st1 := disconnect st user_id
  sweepCalls user_id st1 st1.pending_calls

/-- One received event including the outer exception handling: a raised
handler tears the channel down (`handleError` plus socket close, the
`Bool` component). -/
def stepEvent (mutualDb : String → String → Bool) (uname : String → String)
    (now suffix : String) (st : ManagerState) (user_id : String) (data : Inbound) :
    ManagerState × List (String × Out) × Bool :=
  match processEvent mutualDb uname now suffix st user_id data with
  | some r => (r.1, r.2, false)
  | none => (handleError st user_id, [], true)

/-- The entry points through which the outside world drives the core:
a connection accepted for a user, one inbound event from a connected
user (with the oracle answers for that event inlined), a graceful disconnect,
an error-path teardown. -/
inductive Action where
  | conn (user_id : String) (websocket : Nat)
  | event (user_id : String) (data : Inbound) (isMutual : Bool) (uname now suffix : String)
  | wsDisc (user_id : String)
  | errDisc (user_id : String)

/-- State transition of one `Action`. -/
def applyAction (st : ManagerState) : Action → ManagerState
  | .conn uid ws => (connect st ws uid).1
  | .event uid data m un now suf =>
      (stepEvent (fun _ _ => m) (fun _ => un) now suf st uid data).1
  | .wsDisc uid => (handleWsDisconnect st uid).1
  | .errDisc uid => handleError st uid

/-- The state reached from the fresh manager by a sequence of actions. -/
def run (acts : List Action) : ManagerState :=
  acts.foldl applyAction initialState

/-- Every stored call session has status `"waiting"`. -/
def AllWaiting (st : ManagerState) : Prop :=
  ∀ p ∈ st.pending_calls, p.2.status = "waiting"

/-! Lemmas about the dict operations. -/

theorem dictGet_set_self {α : Type} (l : List (String × α)) (k : String) (v : α) :
    dictGet (dictSet l k v) k = some v := by
  induction l with
  | nil => simp [dictGet, dictSet]
  | cons p rest ih => cases h : p.1 == k <;> simp [dictGet, dictSet, h, ih]

theorem dictGet_set_ne {α : Type} (l : List (String × α)) (k k' : String) (v : α)
    (h : k' ≠ k) : dictGet (dictSet l k v) k' = dictGet l k' := by
  have hk : (k == k') = false := beq_eq_false_iff_ne.mpr (Ne.symm h)
  induction l with
  | nil => simp [dictGet, dictSet, hk]
  | cons p rest ih =>
      by_cases hp : p.1 = k
      · have h1 : (p.1 == k) = true := beq_iff_eq.mpr hp
        have h2 : (p.1 == k') = false :=
          beq_eq_false_iff_ne.mpr (by rw [hp]; exact Ne.symm h)
        simp [dictGet, dictSet, h1, h2, hk]
      · have h1 : (p.1 == k) = false := beq_eq_false_iff_ne.mpr hp
        cases h2 : p.1 == k' <;> simp [dictGet, dictSet, h1, h2, ih]

theorem dictGet_del_self {α : Type} (l : List (String × α)) (k : String) :
    dictGet (dictDel l k) k = none := by
  induction l with
  | nil => simp [dictGet, dictDel]
  | cons p rest ih =>
      cases h : p.1 == k <;>
        simp_all [dictGet, dictDel, List.filter_cons, bne]

theorem dictGet_del_ne {α : Type} (l : List (String × α)) (k k' : String)
    (h : k' ≠ k) : dictGet (dictDel l k) k' = dictGet l k' := by
  induction l with
  | nil => simp [dictGet, dictDel]
  | cons p rest ih =>
      by_cases hp : p.1 = k
      · have h1 : (p.1 == k) = true := beq_iff_eq.mpr hp
        have h2 : (p.1 == k') = false := by
          refine beq_eq_false_iff_ne.mpr ?_
          rw [hp]; exact fun hh => h hh.symm
        simp_all [dictGet, dictDel, List.filter_cons, bne]
      · have h1 : (p.1 == k) = false := beq_eq_false_iff_ne.mpr hp
        cases h2 : p.1 == k' <;>
          simp_all [dictGet, dictDel, List.filter_cons, bne]

theorem mem_dictSet {α : Type} {l : List (String × α)} {k : String} {v : α}
    {p : String × α} (h : p ∈ dictSet l k v) : p ∈ l ∨ p = (k, v) := by
  induction l with
  | nil => simpa [dictSet] using h
  | cons a rest ih =>
      by_cases ha : (a.1 == k) = true
      · rw [dictSet, if_pos ha] at h
        rcases List.mem_cons.mp h with rfl | h'
        · exact Or.inr rfl
        · exact Or.inl (List.mem_cons_of_mem a h')
      · rw [dictSet, if_neg ha] at h
        rcases List.mem_cons.mp h with rfl | h'
        · exact Or.inl (List.mem_cons_self _ _)
        · rcases ih h' with h'' | h''
          · exact Or.inl (List.mem_cons_of_mem a h'')
          · exact Or.inr h''

theorem mem_dictDel {α : Type} {l : List (String × α)} {k : String}
    {p : String × α} (h : p ∈ dictDel l k) : p ∈ l :=
  (List.mem_filter.mp h).1

theorem keys_nodup_eq {α : Type} {l : List (String × α)}
    (h : (l.map Prod.fst).Nodup) {p q : String × α}
    (hp : p ∈ l) (hq : q ∈ l) (hk : p.1 = q.1) : p = q := by
  induction l with
  | nil => cases hp
  | cons a rest ih =>
      rw [List.map_cons, List.nodup_cons] at h
      rcases List.mem_cons.mp hp with rfl | hp'
      · rcases List.mem_cons.mp hq with rfl | hq'
        · rfl
        · exact absurd (hk ▸ List.mem_map_of_mem Prod.fst hq') h.1
      · rcases List.mem_cons.mp hq with rfl | hq'
        · exact absurd (hk ▸ List.mem_map_of_mem Prod.fst hp') h.1
        · exact ih h.2 hp' hq'

/-! Component lemmas for `send_json`, `deliver`, `flushQueue`,
`sweepCalls`. -/

theorem send_json_pending (ok : Bool) (st : ManagerState) (r : String) (m : Out) :
    (send_json ok st r m).1.pending_calls = st.pending_calls := by
  unfold send_json
  cases h : dictGet st.active_connections r <;> cases ok <;> simp

theorem deliver_pending (st : ManagerState) (r : String) (m : Out) :
    (deliver st r m).pending_calls = st.pending_calls :=
  send_json_pending true st r m

theorem deliver_active (st : ManagerState) (r : String) (m : Out) :
    (deliver st r m).active_connections = st.active_connections := by
  unfold deliver send_json
  cases h : dictGet st.active_connections r <;> simp

theorem deliver_live {st : ManagerState} {r : String} {c : Nat} (m : Out)
    (h : dictGet st.active_connections r = some c) : deliver st r m = st := by
  unfold deliver send_json
  rw [h]
  simp

theorem deliver_offline {st : ManagerState} {r : String} (m : Out)
    (h : dictGet st.active_connections r = none) :
    deliver st r m =
      ⟨st.active_connections, st.pending_calls,
        dictSet st.user_notifications r
          ((dictGet st.user_notifications r).getD [] ++ [m])⟩ := by
  unfold deliver send_json
  rw [h]

theorem flushQueue_live {st : ManagerState} {uid : String} {c : Nat}
    (q : List Out) (h : dictGet st.active_connections uid = some c) :
    flushQueue uid st q = (st, q.map (fun e => (uid, e))) := by
  induction q with
  | nil => simp [flushQueue]
  | cons n rest ih => simp [flushQueue, deliver_live n h, ih]

theorem flushQueue_pending (uid : String) (st : ManagerState) (q : List Out) :
    (flushQueue uid st q).1.pending_calls = st.pending_calls := by
  induction q generalizing st with
  | nil => simp [flushQueue]
  | cons n rest ih => simp [flushQueue, ih, deliver_pending]

theorem connect_pending (st : ManagerState) (ws : Nat) (uid : String) :
    (connect st ws uid).1.pending_calls = st.pending_calls := by
  unfold connect
  cases h : dictGet st.user_notifications uid <;>
    simp [h, flushQueue_pending]

theorem sweepCalls_log (uid : String) (st : ManagerState)
    (l : List (String × CallSession)) :
    (sweepCalls uid st l).2 =
      (l.filter (fun p => p.2.from_ == uid)).map
        (fun p => (p.2.to_, Out.call_rejected p.1 uid "Caller disconnected")) := by
  induction l generalizing st with
  | nil => simp [sweepCalls]
  | cons p rest ih =>
      obtain ⟨cid, cd⟩ := p
      cases h : cd.from_ == uid <;>
        simp [sweepCalls, h, List.filter_cons, ih]

theorem sweepCalls_active (uid : String) (st : ManagerState)
    (l : List (String × CallSession)) :
    (sweepCalls uid st l).1.active_connections = st.active_connections := by
  induction l generalizing st with
  | nil => simp [sweepCalls]
  | cons p rest ih =>
      obtain ⟨cid, cd⟩ := p
      cases h : cd.from_ == uid <;>
        simp [sweepCalls, h, ih, deliver_active]

theorem sweepCalls_pending (uid : String) (st : ManagerState)
    (l : List (String × CallSession)) :
    (sweepCalls uid st l).1.pending_calls =
      st.pending_calls.filter
        (fun p => !((l.filter (fun q => q.2.from_ == uid)).any (fun q => p.1 == q.1))) := by
  induction l generalizing st with
  | nil => simp [sweepCalls]
  | cons p rest ih =>
      obtain ⟨cid, cd⟩ := p
      cases h : cd.from_ == uid
      · simp [sweepCalls, h, List.filter_cons, ih]
      · simp only [sweepCalls, h, if_pos]
        rw [ih]
        simp only [deliver_pending, dictDel, List.filter_filter,
          List.filter_cons, h, List.any_cons, Bool.not_or, bne]
        refine List.filter_congr ?_
        intro x _
        cases hx : x.1 == cid <;> simp [hx, Bool.and_comm]

/-! Per-handler lemmas about the stored call sessions, feeding the
state-machine invariant. -/

theorem handleMessage_pending (mdb : String → String → Bool) (un : String → String)
    (now : String) (st : ManagerState) (uid : String) (data : Inbound)
    (st' : ManagerState) (log : List (String × Out))
    (h : handleMessage mdb un now st uid data = some (st', log)) :
    st'.pending_calls = st.pending_calls := by
  unfold handleMessage at h
  cases hto : data.to_ with
  | none => rw [hto] at h; simp at h
  | some r =>
      rw [hto] at h
      cases hmsg : data.message with
      | none => rw [hmsg] at h; simp at h
      | some m =>
          rw [hmsg] at h
          simp only [Option.pure_def, Option.bind_eq_bind, Option.some_bind] at h
          split at h <;>
            simp only [Option.some.injEq, Prod.mk.injEq] at h <;>
            obtain ⟨rfl, rfl⟩ := h <;>
            simp [deliver_pending]

theorem handleCallRequest_pending (now suffix : String) (st : ManagerState)
    (uid : String) (data : Inbound) (st' : ManagerState) (log : List (String × Out))
    (h : handleCallRequest now suffix st uid data = some (st', log)) :
    ∀ p ∈ st'.pending_calls, p ∈ st.pending_calls ∨ p.2.status = "waiting" := by
  unfold handleCallRequest at h
  cases hto : data.to_ with
  | none => rw [hto] at h; simp at h
  | some t =>
      rw [hto] at h
      simp only [Option.pure_def, Option.bind_eq_bind, Option.some_bind,
        Option.some.injEq, Prod.mk.injEq] at h
      obtain ⟨rfl, rfl⟩ := h
      intro p hp
      rw [deliver_pending] at hp
      rcases mem_dictSet hp with h1 | h1
      · exact Or.inl h1
      · right; rw [h1]

theorem handleCallAccept_pending (st : ManagerState) (uid : String) (data : Inbound)
    (st' : ManagerState) (log : List (String × Out))
    (h : handleCallAccept st uid data = some (st', log)) :
    ∀ p ∈ st'.pending_calls, p ∈ st.pending_calls := by
  unfold handleCallAccept at h
  cases hcid : data.call_id with
  | none => rw [hcid] at h; simp at h
  | some cid =>
      rw [hcid] at h
      simp only [Option.pure_def, Option.bind_eq_bind, Option.some_bind] at h
      cases hdg : dictGet st.pending_calls cid <;> rw [hdg] at h <;>
        simp only [Option.some.injEq, Prod.mk.injEq] at h <;>
        obtain ⟨rfl, rfl⟩ := h
      · exact fun p hp => hp
      · intro p hp
        rw [deliver_pending] at hp
        exact mem_dictDel hp

theorem handleCallReject_pending (st : ManagerState) (uid : String) (data : Inbound)
    (st' : ManagerState) (log : List (String × Out))
    (h : handleCallReject st uid data = some (st', log)) :
    ∀ p ∈ st'.pending_calls, p ∈ st.pending_calls := by
  unfold handleCallReject at h
  cases hcid : data.call_id with
  | none => rw [hcid] at h; simp at h
  | some cid =>
      rw [hcid] at h
      simp only [Option.pure_def, Option.bind_eq_bind, Option.some_bind] at h
      cases hdg : dictGet st.pending_calls cid <;> rw [hdg] at h <;>
        simp only [Option.some.injEq, Prod.mk.injEq] at h <;>
        obtain ⟨rfl, rfl⟩ := h
      · exact fun p hp => hp
      · intro p hp
        rw [deliver_pending] at hp
        exact mem_dictDel hp

theorem handleWebrtcOffer_pending (st : ManagerState) (uid : String) (data : Inbound)
    (st' : ManagerState) (log : List (String × Out))
    (h : handleWebrtcOffer st uid data = some (st', log)) :
    st'.pending_calls = st.pending_calls := by
  unfold handleWebrtcOffer at h
  cases hcid : data.call_id with
  | none => rw [hcid] at h; simp at h
  | some cid =>
      rw [hcid] at h
      simp only [Option.pure_def, Option.bind_eq_bind, Option.some_bind] at h
      cases hp1 : (pySplit cid).get? 1 with
      | none => rw [hp1] at h; simp at h
      | some p1 =>
          rw [hp1] at h
          simp only [Option.some_bind] at h
          split at h
          · cases hto : data.to_ with
            | none => rw [hto] at h; simp at h
            | some t =>
                rw [hto] at h
                cases hof : data.offer with
                | none => rw [hof] at h; simp at h
                | some o =>
                    rw [hof] at h
                    simp only [Option.pure_def, Option.bind_eq_bind, Option.some_bind,
                      Option.some.injEq, Prod.mk.injEq] at h
                    obtain ⟨rfl, rfl⟩ := h
                    simp [deliver_pending]
          · simp only [Option.pure_def, Option.some.injEq, Prod.mk.injEq] at h
            obtain ⟨rfl, rfl⟩ := h
            rfl

theorem handleWebrtcAnswer_pending (st : ManagerState) (uid : String) (data : Inbound)
    (st' : ManagerState) (log : List (String × Out))
    (h : handleWebrtcAnswer st uid data = some (st', log)) :
    st'.pending_calls = st.pending_calls := by
  unfold handleWebrtcAnswer at h
  cases hcid : data.call_id with
  | none => rw [hcid] at h; simp at h
  | some cid =>
      rw [hcid] at h
      simp only [Option.pure_def, Option.bind_eq_bind, Option.some_bind] at h
      cases hp1 : (pySplit cid).get? 1 with
      | none => rw [hp1] at h; simp at h
      | some p1 =>
          rw [hp1] at h
          simp only [Option.some_bind] at h
          split at h
          · cases hto : data.to_ with
            | none => rw [hto] at h; simp at h
            | some t =>
                rw [hto] at h
                cases han : data.answer with
                | none => rw [han] at h; simp at h
                | some o =>
                    rw [han] at h
                    simp only [Option.pure_def, Option.bind_eq_bind, Option.some_bind,
                      Option.some.injEq, Prod.mk.injEq] at h
                    obtain ⟨rfl, rfl⟩ := h
                    simp [deliver_pending]
          · simp only [Option.pure_def, Option.some.injEq, Prod.mk.injEq] at h
            obtain ⟨rfl, rfl⟩ := h
            rfl

theorem handleIceCandidate_pending (st : ManagerState) (uid : String) (data : Inbound)
    (st' : ManagerState) (log : List (String × Out))
    (h : handleIceCandidate st uid data = some (st', log)) :
    st'.pending_calls = st.pending_calls := by
  unfold handleIceCandidate at h
  cases hcid : data.call_id with
  | none => rw [hcid] at h; simp at h
  | some cid =>
      rw [hcid] at h
      simp only [Option.pure_def, Option.bind_eq_bind, Option.some_bind] at h
      cases hp1 : (pySplit cid).get? 1 with
      | none => rw [hp1] at h; simp at h
      | some p1 =>
          rw [hp1] at h
          simp only [Option.some_bind] at h
          split at h
          · cases hto : data.to_ with
            | none => rw [hto] at h; simp at h
            | some t =>
                rw [hto] at h
                cases hca : data.candidate with
                | none => rw [hca] at h; simp at h
                | some o =>
                    rw [hca] at h
                    simp only [Option.pure_def, Option.bind_eq_bind, Option.some_bind,
                      Option.some.injEq, Prod.mk.injEq] at h
                    obtain ⟨rfl, rfl⟩ := h
                    simp [deliver_pending]
          · simp only [Option.pure_def, Option.some.injEq, Prod.mk.injEq] at h
            obtain ⟨rfl, rfl⟩ := h
            rfl

theorem handleCallEnd_pending (st : ManagerState) (uid : String) (data : Inbound)
    (st' : ManagerState) (log : List (String × Out))
    (h : handleCallEnd st uid data = some (st', log)) :
    ∀ p ∈ st'.pending_calls, p ∈ st.pending_calls := by
  unfold handleCallEnd at h
  cases hcid : data.call_id with
  | none => rw [hcid] at h; simp at h
  | some cid =>
      rw [hcid] at h
      simp only [Option.pure_def, Option.bind_eq_bind, Option.some_bind] at h
      cases hp1 : (pySplit cid).get? 1 with
      | none => rw [hp1] at h; simp at h
      | some p1 =>
          rw [hp1] at h
          simp only [Option.some_bind, Option.some.injEq, Prod.mk.injEq] at h
          obtain ⟨rfl, rfl⟩ := h
          intro p hp
          split at hp <;> split at hp <;>
            simp only [deliver_pending] at hp <;>
            first
              | exact mem_dictDel hp
              | exact hp

theorem processEvent_pending_mem (mdb : String → String → Bool) (un : String → String)
    (now suffix : String) (st : ManagerState) (uid : String) (data : Inbound)
    (st' : ManagerState) (log : List (String × Out))
    (h : processEvent mdb un now suffix st uid data = some (st', log)) :
    ∀ p ∈ st'.pending_calls, p ∈ st.pending_calls ∨ p.2.status = "waiting" := by
  unfold processEvent at h
  cases hty : data.type with
  | none => rw [hty] at h; simp at h
  | some ty =>
      rw [hty] at h
      simp only [Option.pure_def, Option.bind_eq_bind, Option.some_bind] at h
      split at h
      · intro p hp
        rw [handleMessage_pending mdb un now st uid data st' log h] at hp
        exact Or.inl hp
      split at h
      · exact handleCallRequest_pending now suffix st uid data st' log h
      split at h
      · exact fun p hp => Or.inl (handleCallAccept_pending st uid data st' log h p hp)
      split at h
      · exact fun p hp => Or.inl (handleCallReject_pending st uid data st' log h p hp)
      split at h
      · intro p hp
        rw [handleWebrtcOffer_pending st uid data st' log h] at hp
        exact Or.inl hp
      split at h
      · intro p hp
        rw [handleWebrtcAnswer_pending st uid data st' log h] at hp
        exact Or.inl hp
      split at h
      · intro p hp
        rw [handleIceCandidate_pending st uid data st' log h] at hp
        exact Or.inl hp
      split at h
      · exact fun p hp => Or.inl (handleCallEnd_pending st uid data st' log h p hp)
      · simp only [Option.pure_def, Option.some.injEq, Prod.mk.injEq] at h
        obtain ⟨rfl, rfl⟩ := h
        exact fun p hp => Or.inl hp

theorem disconnect_pending (st : ManagerState) (uid : String) :
    (disconnect st uid).pending_calls = st.pending_calls := by
  unfold disconnect
  split <;> rfl

theorem disconnect_notifications (st : ManagerState) (uid : String) :
    (disconnect st uid).user_notifications = st.user_notifications := by
  unfold disconnect
  split <;> rfl

theorem handleError_pending (st : ManagerState) (uid : String) :
    (handleError st uid).pending_calls = st.pending_calls :=
  disconnect_pending st uid

theorem handleWsDisconnect_pending_mem (st : ManagerState) (uid : String) :
    ∀ p ∈ (handleWsDisconnect st uid).1.pending_calls, p ∈ st.pending_calls := by
  intro p hp
  unfold handleWsDisconnect at hp
  rw [sweepCalls_pending] at hp
  have := (List.mem_filter.mp hp).1
  rwa [disconnect_pending] at this

theorem stepEvent_pending_mem (mdb : String → String → Bool) (un : String → String)
    (now suffix : String) (st : ManagerState) (uid : String) (data : Inbound) :
    ∀ p ∈ (stepEvent mdb un now suffix st uid data).1.pending_calls,
      p ∈ st.pending_calls ∨ p.2.status = "waiting" := by
  unfold stepEvent
  cases hpe : processEvent mdb un now suffix st uid data with
  | some r => exact processEvent_pending_mem mdb un now suffix st uid data r.1 r.2 hpe
  | none =>
      intro p hp
      rw [handleError_pending] at hp
      exact Or.inl hp

theorem allWaiting_applyAction (st : ManagerState) (a : Action) (h : AllWaiting st) :
    AllWaiting (applyAction st a) := by
  cases a with
  | conn uid ws =>
      intro p hp
      rw [applyAction, connect_pending] at hp
      exact h p hp
  | event uid data m un now suf =>
      intro p hp
      rcases stepEvent_pending_mem (fun _ _ => m) (fun _ => un) now suf st uid data p hp with
        h1 | h1
      · exact h p h1
      · exact h1
  | wsDisc uid =>
      intro p hp
      exact h p (handleWsDisconnect_pending_mem st uid p hp)
  | errDisc uid =>
      intro p hp
      rw [applyAction, handleError_pending] at hp
      exact h p hp

theorem foldl_allWaiting (acts : List Action) :
    ∀ st, AllWaiting st → AllWaiting (List.foldl applyAction st acts) := by
  induction acts with
  | nil => exact fun st h => h
  | cons a rest ih => exact fun st h => ih _ (allWaiting_applyAction st a h)

/-! Dispatch lemmas: which `elif` branch a given `data["type"]` value
selects. -/

theorem processEvent_message (mdb : String → String → Bool) (un : String → String)
    (now suffix : String) (st : ManagerState) (uid : String) (data : Inbound)
    (hty : data.type = some "message") :
    processEvent mdb un now suffix st uid data = handleMessage mdb un now st uid data := by
  unfold processEvent
  rw [hty]
  simp only [Option.pure_def, Option.bind_eq_bind, Option.some_bind]
  rw [if_pos (by decide)]

theorem processEvent_call_request (mdb : String → String → Bool) (un : String → String)
    (now suffix : String) (st : ManagerState) (uid : String) (data : Inbound)
    (hty : data.type = some "call_request") :
    processEvent mdb un now suffix st uid data = handleCallRequest now suffix st uid data := by
  unfold processEvent
  rw [hty]
  simp only [Option.pure_def, Option.bind_eq_bind, Option.some_bind]
  rw [if_neg (by decide), if_pos (by decide)]

theorem processEvent_call_accept (mdb : String → String → Bool) (un : String → String)
    (now suffix : String) (st : ManagerState) (uid : String) (data : Inbound)
    (hty : data.type = some "call_accept") :
    processEvent mdb un now suffix st uid data = handleCallAccept st uid data := by
  unfold processEvent
  rw [hty]
  simp only [Option.pure_def, Option.bind_eq_bind, Option.some_bind]
  rw [if_neg (by decide), if_neg (by decide), if_pos (by decide)]

theorem processEvent_call_reject (mdb : String → String → Bool) (un : String → String)
    (now suffix : String) (st : ManagerState) (uid : String) (data : Inbound)
    (hty : data.type = some "call_reject") :
    processEvent mdb un now suffix st uid data = handleCallReject st uid data := by
  unfold processEvent
  rw [hty]
  simp only [Option.pure_def, Option.bind_eq_bind, Option.some_bind]
  rw [if_neg (by decide), if_neg (by decide), if_neg (by decide), if_pos (by decide)]

theorem processEvent_webrtc_offer (mdb : String → String → Bool) (un : String → String)
    (now suffix : String) (st : ManagerState) (uid : String) (data : Inbound)
    (hty : data.type = some "webrtc_offer") :
    processEvent mdb un now suffix st uid data = handleWebrtcOffer st uid data := by
  unfold processEvent
  rw [hty]
  simp only [Option.pure_def, Option.bind_eq_bind, Option.some_bind]
  rw [if_neg (by decide), if_neg (by decide), if_neg (by decide), if_neg (by decide),
    if_pos (by decide)]

theorem processEvent_webrtc_answer (mdb : String → String → Bool) (un : String → String)
    (now suffix : String) (st : ManagerState) (uid : String) (data : Inbound)
    (hty : data.type = some "webrtc_answer") :
    processEvent mdb un now suffix st uid data = handleWebrtcAnswer st uid data := by
  unfold processEvent
  rw [hty]
  simp only [Option.pure_def, Option.bind_eq_bind, Option.some_bind]
  rw [if_neg (by decide), if_neg (by decide), if_neg (by decide), if_neg (by decide),
    if_neg (by decide), if_pos (by decide)]

theorem processEvent_ice_candidate (mdb : String → String → Bool) (un : String → String)
    (now suffix : String) (st : ManagerState) (uid : String) (data : Inbound)
    (hty : data.type = some "ice_candidate") :
    processEvent mdb un now suffix st uid data = handleIceCandidate st uid data := by
  unfold processEvent
  rw [hty]
  simp only [Option.pure_def, Option.bind_eq_bind, Option.some_bind]
  rw [if_neg (by decide), if_neg (by decide), if_neg (by decide), if_neg (by decide),
    if_neg (by decide), if_neg (by decide), if_pos (by decide)]

theorem processEvent_call_end (mdb : String → String → Bool) (un : String → String)
    (now suffix : String) (st : ManagerState) (uid : String) (data : Inbound)
    (hty : data.type = some "call_end") :
    processEvent mdb un now suffix st uid data = handleCallEnd st uid data := by
  unfold processEvent
  rw [hty]
  simp only [Option.pure_def, Option.bind_eq_bind, Option.some_bind]
  rw [if_neg (by decide), if_neg (by decide), if_neg (by decide), if_neg (by decide),
    if_neg (by decide), if_neg (by decide), if_neg (by decide), if_pos (by decide)]

theorem processEvent_unknown (mdb : String → String → Bool) (un : String → String)
    (now suffix : String) (st : ManagerState) (uid : String) (data : Inbound)
    (ty : String) (hty : data.type = some ty)
    (h : ty ∉ ["message", "call_request", "call_accept", "call_reject", "webrtc_offer",
      "webrtc_answer", "ice_candidate", "call_end"]) :
    processEvent mdb un now suffix st uid data = some (st, []) := by
  simp only [List.mem_cons, List.mem_singleton, not_or] at h
  obtain ⟨h1, h2, h3, h4, h5, h6, h7, h8, -⟩ := h
  unfold processEvent
  rw [hty]
  simp only [Option.pure_def, Option.bind_eq_bind, Option.some_bind]
  rw [if_neg (fun hh => h1 (beq_iff_eq.mp hh)), if_neg (fun hh => h2 (beq_iff_eq.mp hh)),
    if_neg (fun hh => h3 (beq_iff_eq.mp hh)), if_neg (fun hh => h4 (beq_iff_eq.mp hh)),
    if_neg (fun hh => h5 (beq_iff_eq.mp hh)), if_neg (fun hh => h6 (beq_iff_eq.mp hh)),
    if_neg (fun hh => h7 (beq_iff_eq.mp hh)), if_neg (fun hh => h8 (beq_iff_eq.mp hh))]

/-! The participant guard of the media-signaling branches. -/

theorem handleWebrtcOffer_nonparticipant (st : ManagerState) (uid : String)
    (data : Inbound) (cid a b : String) (rest : List String)
    (hcid : data.call_id = some cid) (hsplit : pySplit cid = a :: b :: rest)
    (ha : uid ≠ a) (hb : uid ≠ b) :
    handleWebrtcOffer st uid data = some (st, []) := by
  have hg : (b == uid || (a :: b :: rest).headD "" == uid) = false := by
    rw [List.headD_cons, beq_eq_false_iff_ne.mpr (Ne.symm hb),
      beq_eq_false_iff_ne.mpr (Ne.symm ha)]
    rfl
  unfold handleWebrtcOffer
  rw [hcid]
  simp only [Option.pure_def, Option.bind_eq_bind, Option.some_bind, hsplit,
    List.get?_cons_succ, List.get?_cons_zero, Option.some_bind]
  rw [hg]
  simp

theorem handleWebrtcAnswer_nonparticipant (st : ManagerState) (uid : String)
    (data : Inbound) (cid a b : String) (rest : List String)
    (hcid : data.call_id = some cid) (hsplit : pySplit cid = a :: b :: rest)
    (ha : uid ≠ a) (hb : uid ≠ b) :
    handleWebrtcAnswer st uid data = some (st, []) := by
  have hg : (b == uid || (a :: b :: rest).headD "" == uid) = false := by
    rw [List.headD_cons, beq_eq_false_iff_ne.mpr (Ne.symm hb),
      beq_eq_false_iff_ne.mpr (Ne.symm ha)]
    rfl
  unfold handleWebrtcAnswer
  rw [hcid]
  simp only [Option.pure_def, Option.bind_eq_bind, Option.some_bind, hsplit,
    List.get?_cons_succ, List.get?_cons_zero, Option.some_bind]
  rw [hg]
  simp

theorem handleIceCandidate_nonparticipant (st : ManagerState) (uid : String)
    (data : Inbound) (cid a b : String) (rest : List String)
    (hcid : data.call_id = some cid) (hsplit : pySplit cid = a :: b :: rest)
    (ha : uid ≠ a) (hb : uid ≠ b) :
    handleIceCandidate st uid data = some (st, []) := by
  have hg : (b == uid || (a :: b :: rest).headD "" == uid) = false := by
    rw [List.headD_cons, beq_eq_false_iff_ne.mpr (Ne.symm hb),
      beq_eq_false_iff_ne.mpr (Ne.symm ha)]
    rfl
  unfold handleIceCandidate
  rw [hcid]
  simp only [Option.pure_def, Option.bind_eq_bind, Option.some_bind, hsplit,
    List.get?_cons_succ, List.get?_cons_zero, Option.some_bind]
  rw [hg]
  simp

theorem disconnect_lookup_self (st : ManagerState) (uid : String) :
    dictGet (disconnect st uid).active_connections uid = none := by
  unfold disconnect
  cases hh : dictGet st.active_connections uid with
  | none => rw [if_neg (by simp)]; exact hh
  | some c => rw [if_pos (by simp)]; exact dictGet_del_self _ _

/-! The claims of the specification. -/

/-- C1 counterexample: with a waiting session stored for call id
"1_2_abc" (encoded participants "1" and "2"), a `call_accept` sent by
the non-participant "3" is neither rejected nor ignored: it consumes
the session (the pending-call map becomes empty) and produces an
outbound `call_accepted{by: "3"}` delivered to "1" — refuting, at this
input, that every signaling event from a non-participant leaves the
session state unmutated and forwards nothing. -/
theorem c1_counterexample_call_accept_no_auth :
    processEvent (fun _ _ => false) (fun u => u) "t" "s"
      ⟨[], [("1_2_abc", ⟨"1", "2", "waiting", "t0"⟩)], []⟩ "3"
      { type := some "call_accept", call_id := some "1_2_abc" } =
      some (⟨[], [], [("1", [Out.call_accepted "1_2_abc" "3"])]⟩,
        [("1", Out.call_accepted "1_2_abc" "3")]) ∧
    ([] : List (String × CallSession)) ≠
      [("1_2_abc", (⟨"1", "2", "waiting", "t0"⟩ : CallSession))] ∧
    [("1", Out.call_accepted "1_2_abc" "3")] ≠ ([] : List (String × Out)) :=
  ⟨rfl, by decide, by decide⟩

/-- C1 (amended): only the media-signaling events `webrtc_offer`,
`webrtc_answer` and `ice_candidate` enforce the participant invariant:
when the sender is not one of the two identities encoded in the call id,
the event is silently ignored — the state (registry, queues, sessions)
is unchanged and nothing is sent to anyone.  (`call_accept`,
`call_reject` and `call_end` perform no sender check, per the
counterexample.) -/
theorem webrtc_signaling_auth (mdb : String → String → Bool) (un : String → String)
    (now suffix : String) (st : ManagerState) (uid : String) (data : Inbound)
    (cid a b : String) (rest : List String)
    (hty : data.type = some "webrtc_offer" ∨ data.type = some "webrtc_answer" ∨
      data.type = some "ice_candidate")
    (hcid : data.call_id = some cid)
    (hsplit : pySplit cid = a :: b :: rest)
    (ha : uid ≠ a) (hb : uid ≠ b) :
    processEvent mdb un now suffix st uid data = some (st, []) := by
  rcases hty with hty | hty | hty
  · rw [processEvent_webrtc_offer mdb un now suffix st uid data hty]
    exact handleWebrtcOffer_nonparticipant st uid data cid a b rest hcid hsplit ha hb
  · rw [processEvent_webrtc_answer mdb un now suffix st uid data hty]
    exact handleWebrtcAnswer_nonparticipant st uid data cid a b rest hcid hsplit ha hb
  · rw [processEvent_ice_candidate mdb un now suffix st uid data hty]
    exact handleIceCandidate_nonparticipant st uid data cid a b rest hcid hsplit ha hb

/-- Witness for the amended C1: an `ice_candidate` for "1_2_abc" sent by
"3" leaves the concrete state untouched and sends nothing. -/
theorem webrtc_signaling_auth_witness :
    processEvent (fun _ _ => false) (fun u => u) "t" "s"
      ⟨[("2", 7)], [], []⟩ "3"
      { type := some "ice_candidate", to_ := some "2", call_id := some "1_2_abc",
        candidate := some "c" } =
      some (⟨[("2", 7)], [], []⟩, []) :=
  webrtc_signaling_auth (fun _ _ => false) (fun u => u) "t" "s"
    ⟨[("2", 7)], [], []⟩ "3"
    { type := some "ice_candidate", to_ := some "2", call_id := some "1_2_abc",
      candidate := some "c" }
    "1_2_abc" "1" "2" ["abc"] (Or.inr (Or.inr rfl)) rfl rfl (by decide) (by decide)

/-- C2 counterexample: for the waiting session of call id "10_20_xyz"
(initiator "10", recipient "20"), a `call_accept` sent by "99" — which
is not `session.to` — still consumes the session and emits
`call_accepted{call_id, by: "99"}` to "10". -/
theorem c2_counterexample_accept_by_stranger :
    processEvent (fun _ _ => false) (fun u => u) "t" "s"
      ⟨[], [("10_20_xyz", ⟨"10", "20", "waiting", "t0"⟩)], []⟩ "99"
      { type := some "call_accept", call_id := some "10_20_xyz" } =
      some (⟨[], [], [("10", [Out.call_accepted "10_20_xyz" "99"])]⟩,
        [("10", Out.call_accepted "10_20_xyz" "99")]) ∧
    ([] : List (String × CallSession)) ≠
      [("10_20_xyz", (⟨"10", "20", "waiting", "t0"⟩ : CallSession))] ∧
    [("10", Out.call_accepted "10_20_xyz" "99")] ≠ ([] : List (String × Out)) :=
  ⟨rfl, by decide, by decide⟩

/-- C2 (amended): a `call_accept` whose call id names an existing
session always consumes it — the session is removed from the
pending-call map and one `call_accepted{call_id, by: sender}` is
delivered to `session.from`, for every sender whatsoever; the code
checks only that the session exists, never that the sender equals
`session.to`. -/
theorem call_accept_any_sender (mdb : String → String → Bool) (un : String → String)
    (now suffix : String) (st : ManagerState) (uid : String) (data : Inbound)
    (cid : String) (sess : CallSession)
    (hty : data.type = some "call_accept") (hcid : data.call_id = some cid)
    (hsess : dictGet st.pending_calls cid = some sess) :
    ∃ st', processEvent mdb un now suffix st uid data =
        some (st', [(sess.from_, Out.call_accepted cid uid)]) ∧
      st'.pending_calls = dictDel st.pending_calls cid ∧
      st'.active_connections = st.active_connections := by
  rw [processEvent_call_accept mdb un now suffix st uid data hty]
  unfold handleCallAccept
  rw [hcid]
  simp only [Option.pure_def, Option.bind_eq_bind, Option.some_bind]
  rw [hsess]
  refine ⟨_, rfl, ?_, ?_⟩
  · rw [deliver_pending]
  · rw [deliver_active]

/-- Witness for the amended C2: even the legitimate recipient "2" goes
through the same unchecked path on a concrete state. -/
theorem call_accept_any_sender_witness :
    ∃ st', processEvent (fun _ _ => false) (fun u => u) "t" "s"
        ⟨[], [("1_2_ab", ⟨"1", "2", "waiting", "t0"⟩)], []⟩ "2"
        { type := some "call_accept", call_id := some "1_2_ab" } =
        some (st', [("1", Out.call_accepted "1_2_ab" "2")]) ∧
      st'.pending_calls = dictDel [("1_2_ab", ⟨"1", "2", "waiting", "t0"⟩)] "1_2_ab" ∧
      st'.active_connections = [] :=
  call_accept_any_sender (fun _ _ => false) (fun u => u) "t" "s"
    ⟨[], [("1_2_ab", ⟨"1", "2", "waiting", "t0"⟩)], []⟩ "2"
    { type := some "call_accept", call_id := some "1_2_ab" }
    "1_2_ab" ⟨"1", "2", "waiting", "t0"⟩ rfl rfl rfl

/-- C8: a `webrtc_offer` sent by a user that is not one of the two
identities encoded in the call id produces no outbound event to anyone:
the returned state is exactly the input state (so no offline queue
gained an entry) and the delivery log is empty (so nothing was sent on
any live channel). -/
theorem webrtc_offer_nonparticipant_silent (mdb : String → String → Bool)
    (un : String → String) (now suffix : String) (st : ManagerState) (uid : String)
    (data : Inbound) (cid a b : String) (rest : List String)
    (hty : data.type = some "webrtc_offer") (hcid : data.call_id = some cid)
    (hsplit : pySplit cid = a :: b :: rest) (ha : uid ≠ a) (hb : uid ≠ b) :
    processEvent mdb un now suffix st uid data = some (st, []) := by
  rw [processEvent_webrtc_offer mdb un now suffix st uid data hty]
  exact handleWebrtcOffer_nonparticipant st uid data cid a b rest hcid hsplit ha hb

/-- Witness for C8: concrete offer from "3" for call id "1_2_abc",
with "2" online — nothing is sent and nothing queued. -/
theorem webrtc_offer_nonparticipant_silent_witness :
    processEvent (fun _ _ => false) (fun u => u) "t" "s"
      ⟨[("2", 7)], [], []⟩ "3"
      { type := some "webrtc_offer", to_ := some "2", call_id := some "1_2_abc",
        offer := some "o" } =
      some (⟨[("2", 7)], [], []⟩, []) :=
  webrtc_offer_nonparticipant_silent (fun _ _ => false) (fun u => u) "t" "s"
    ⟨[("2", 7)], [], []⟩ "3"
    { type := some "webrtc_offer", to_ := some "2", call_id := some "1_2_abc",
      offer := some "o" }
    "1_2_abc" "1" "2" ["abc"] rfl rfl rfl (by decide) (by decide)

/-- C3 counterexample: with "7" live and the transport send failing,
`send_json` drops the registry entry and returns `False`, but the event
does NOT fall through to queuing: the offline-queue map stays empty
instead of gaining the event — the message is lost. -/
theorem c3_counterexample_send_failure_discards :
    send_json false ⟨[("7", 42)], [], []⟩ "7" (Out.notification "1" "m" "t") =
      (⟨[], [], []⟩, false) ∧
    ([] : List (String × List Out)) ≠
      [("7", [Out.notification "1" "m" "t"])] :=
  ⟨rfl, by decide⟩

/-- C3 (amended): when the synchronous send to a live channel fails,
the registry entry for the receiver is dropped and `False` is returned
without raising, but the event is discarded: the offline queues (and
the sessions) are exactly as before, with nothing appended. -/
theorem send_failure_unregisters (st : ManagerState) (r : String) (m : Out)
    (h : (dictGet st.active_connections r).isSome = true) :
    send_json false st r m =
      (⟨dictDel st.active_connections r, st.pending_calls, st.user_notifications⟩,
        false) := by
  unfold send_json
  cases hh : dictGet st.active_connections r with
  | none => rw [hh] at h; simp at h
  | some c => rfl

/-- Witness for the amended C3: the concrete failing send to the live
"7". -/
theorem send_failure_unregisters_witness :
    send_json false ⟨[("7", 42)], [], []⟩ "7" (Out.call_ended "c" "9") =
      (⟨dictDel [("7", 42)] "7", [], []⟩, false) :=
  send_failure_unregisters ⟨[("7", 42)], [], []⟩ "7" (Out.call_ended "c" "9") rfl

/-- C6 counterexample: the inbound event `{type: "message", to: "2"}`
is malformed (it misses the required `message` field).  Processing it
for the live sender "1" raises, and the teardown mutates core state —
the registry entry for "1" is removed — and closes the channel (the
final `true`), refuting that malformed events leave all state unchanged
without the core tearing the channel down. -/
theorem c6_counterexample_missing_field_teardown :
    stepEvent (fun _ _ => false) (fun u => u) "t" "s"
      ⟨[("1", 5)], [], []⟩ "1" { type := some "message", to_ := some "2" } =
      (⟨[], [], []⟩, [], true) ∧
    ([] : List (String × Nat)) ≠ [("1", 5)] :=
  ⟨rfl, by decide⟩

/-- C6 (amended): an inbound event with an unknown kind is ignored with
no state change and no teardown; an event missing a required field for
its kind instead raises — its teardown drops the registry entry of the
sender and closes the socket, while the offline queues and the
call-session map stay unchanged and no disconnect sweep runs. -/
theorem malformed_event_handling (mdb : String → String → Bool) (un : String → String)
    (now suffix : String) (st : ManagerState) (uid : String) (data : Inbound) :
    (∀ ty, data.type = some ty →
      ty ∉ ["message", "call_request", "call_accept", "call_reject", "webrtc_offer",
        "webrtc_answer", "ice_candidate", "call_end"] →
      stepEvent mdb un now suffix st uid data = (st, [], false)) ∧
    (processEvent mdb un now suffix st uid data = none →
      stepEvent mdb un now suffix st uid data = (handleError st uid, [], true)) ∧
    (handleError st uid).pending_calls = st.pending_calls ∧
    (handleError st uid).user_notifications = st.user_notifications := by
  refine ⟨?_, ?_, handleError_pending st uid, disconnect_notifications st uid⟩
  · intro ty hty hmem
    unfold stepEvent
    rw [processEvent_unknown mdb un now suffix st uid data ty hty hmem]
  · intro hn
    unfold stepEvent
    rw [hn]

/-- Witness for the amended C6: an unknown kind is a no-op for the
concrete live "1"; the missing-field event from the counterexample goes
through the teardown equation. -/
theorem malformed_event_handling_witness :
    stepEvent (fun _ _ => false) (fun u => u) "t" "s" ⟨[("1", 5)], [], []⟩ "1"
      { type := some "bogus" } = (⟨[("1", 5)], [], []⟩, [], false) ∧
    stepEvent (fun _ _ => false) (fun u => u) "t" "s" ⟨[("1", 5)], [], []⟩ "1"
      { type := some "message", to_ := some "2" } =
      (handleError ⟨[("1", 5)], [], []⟩ "1", [], true) :=
  ⟨(malformed_event_handling (fun _ _ => false) (fun u => u) "t" "s"
      ⟨[("1", 5)], [], []⟩ "1" { type := some "bogus" }).1 "bogus" rfl (by decide),
   (malformed_event_handling (fun _ _ => false) (fun u => u) "t" "s"
      ⟨[("1", 5)], [], []⟩ "1" { type := some "message", to_ := some "2" }).2.1 rfl⟩

/-- C7 counterexample: channel 1 registers for "1", then channel 2
replaces it (the newer registration).  A subsequent
`disconnect("1")` — as the endpoint teardown of the stale channel-1
task would issue — is not a no-op: it removes the entry, so the newer
registration does not survive.  (`disconnect` takes no channel argument
at all, so it cannot compare the entry with the channel of the caller.) -/
theorem c7_counterexample_stale_disconnect :
    dictGet ((connect ((connect initialState 1 "1").1) 2 "1").1).active_connections "1" =
      some 2 ∧
    disconnect ((connect ((connect initialState 1 "1").1) 2 "1").1) "1" =
      (⟨[], [], []⟩ : ManagerState) ∧
    dictGet (⟨[], [], []⟩ : ManagerState).active_connections "1" = none :=
  ⟨rfl, rfl, rfl⟩

/-- C7 (amended): `disconnect` removes the live-channel entry for the
identity whenever one exists, regardless of which channel the entry
holds (it has no way to check); entries of other identities, the
sessions and the queues are untouched. -/
theorem disconnect_unconditional (st : ManagerState) (uid : String) (c : Nat)
    (h : dictGet st.active_connections uid = some c) :
    dictGet (disconnect st uid).active_connections uid = none ∧
    (∀ v, v ≠ uid → dictGet (disconnect st uid).active_connections v =
      dictGet st.active_connections v) ∧
    (disconnect st uid).pending_calls = st.pending_calls ∧
    (disconnect st uid).user_notifications = st.user_notifications := by
  refine ⟨disconnect_lookup_self st uid, ?_, disconnect_pending st uid,
    disconnect_notifications st uid⟩
  intro v hv
  unfold disconnect
  rw [if_pos (by rw [h]; rfl)]
  exact dictGet_del_ne _ _ _ hv

/-- Witness for the amended C7 at a concrete two-user registry. -/
theorem disconnect_unconditional_witness :
    dictGet (disconnect ⟨[("1", 2), ("5", 6)], [], []⟩ "1").active_connections "1" =
      none ∧
    (∀ v, v ≠ "1" →
      dictGet (disconnect ⟨[("1", 2), ("5", 6)], [], []⟩ "1").active_connections v =
      dictGet ([("1", 2), ("5", 6)] : List (String × Nat)) v) ∧
    (disconnect ⟨[("1", 2), ("5", 6)], [], []⟩ "1").pending_calls =
      ([] : List (String × CallSession)) ∧
    (disconnect ⟨[("1", 2), ("5", 6)], [], []⟩ "1").user_notifications =
      ([] : List (String × List Out)) :=
  disconnect_unconditional ⟨[("1", 2), ("5", 6)], [], []⟩ "1" 2 rfl

/-- C4 counterexample: with "1" live and a waiting session initiated by
"1", the error-path teardown (`except Exception`) runs only the
unregistration: the session survives untouched and no `call_rejected`
is produced (the handler makes no sends at all), so the sweep step does
NOT run on error disconnects.  Moreover even the graceful sweep has
reason string "Caller disconnected", not the claimed
"caller disconnected". -/
theorem c4_counterexample_error_path_no_sweep :
    (handleError ⟨[("1", 5)], [("1_2_ab", ⟨"1", "2", "waiting", "t0"⟩)], []⟩
        "1").pending_calls =
      [("1_2_ab", (⟨"1", "2", "waiting", "t0"⟩ : CallSession))] ∧
    (handleWsDisconnect ⟨[("1", 5)], [("1_2_ab", ⟨"1", "2", "waiting", "t0"⟩)], []⟩
        "1").2 =
      [("2", Out.call_rejected "1_2_ab" "1" "Caller disconnected")] ∧
    "Caller disconnected" ≠ "caller disconnected" :=
  ⟨rfl, rfl, by decide⟩

/-- C4 (amended): only the graceful-disconnect path
(`except WebSocketDisconnect`) runs both cleanup steps: the identity is
unregistered and every pending session initiated by it yields exactly
one `call_rejected{call_id, by: identity, reason: "Caller disconnected"}`
delivered to its `session.to`, in stored order, with the session
removed and sessions of other initiators untouched.  The error-path
teardown (`except Exception`) only unregisters: sessions and queues are
left exactly as they were and no sweep event is produced. -/
theorem disconnect_cleanup (st : ManagerState) (uid : String)
    (hnd : (st.pending_calls.map Prod.fst).Nodup) :
    dictGet (handleWsDisconnect st uid).1.active_connections uid = none ∧
    (handleWsDisconnect st uid).1.pending_calls =
      st.pending_calls.filter (fun p => p.2.from_ != uid) ∧
    (handleWsDisconnect st uid).2 =
      (st.pending_calls.filter (fun p => p.2.from_ == uid)).map
        (fun p => (p.2.to_, Out.call_rejected p.1 uid "Caller disconnected")) ∧
    (handleError st uid).pending_calls = st.pending_calls ∧
    (handleError st uid).user_notifications = st.user_notifications ∧
    dictGet (handleError st uid).active_connections uid = none := by
  have hpend : (disconnect st uid).pending_calls = st.pending_calls :=
    disconnect_pending st uid
  refine ⟨?_, ?_, ?_, handleError_pending st uid, disconnect_notifications st uid,
    disconnect_lookup_self st uid⟩
  · unfold handleWsDisconnect
    rw [sweepCalls_active]
    exact disconnect_lookup_self st uid
  · unfold handleWsDisconnect
    rw [sweepCalls_pending, hpend]
    refine List.filter_congr ?_
    intro x hx
    cases hf : x.2.from_ == uid
    · have hany : (st.pending_calls.filter (fun q => q.2.from_ == uid)).any
          (fun q => x.1 == q.1) = false := by
        rw [List.any_eq_false]
        intro q hq
        have hq1 := List.mem_filter.mp hq
        intro hxq
        have hxq' : x = q := keys_nodup_eq hnd hx hq1.1 (beq_iff_eq.mp hxq)
        rw [hxq', hq1.2] at hf
        cases hf
      rw [hany]
      simp [bne, hf]
    · have hany : (st.pending_calls.filter (fun q => q.2.from_ == uid)).any
          (fun q => x.1 == q.1) = true :=
        List.any_eq_true.mpr ⟨x, List.mem_filter.mpr ⟨hx, hf⟩, by simp⟩
      rw [hany]
      simp [bne, hf]
  · unfold handleWsDisconnect
    rw [sweepCalls_log, hpend]

/-- Witness for the amended C4: "1" initiated one of the two stored
sessions; its graceful disconnect rejects exactly that one and keeps
the other. -/
theorem disconnect_cleanup_witness :
    dictGet (handleWsDisconnect ⟨[("1", 5)],
        [("1_2_ab", ⟨"1", "2", "waiting", "t0"⟩),
         ("3_1_cd", ⟨"3", "1", "waiting", "t1"⟩)], []⟩ "1").1.active_connections "1" =
      none ∧
    (handleWsDisconnect ⟨[("1", 5)],
        [("1_2_ab", ⟨"1", "2", "waiting", "t0"⟩),
         ("3_1_cd", ⟨"3", "1", "waiting", "t1"⟩)], []⟩ "1").1.pending_calls =
      ([("1_2_ab", ⟨"1", "2", "waiting", "t0"⟩),
        ("3_1_cd", ⟨"3", "1", "waiting", "t1"⟩)] :
          List (String × CallSession)).filter (fun p => p.2.from_ != "1") ∧
    (handleWsDisconnect ⟨[("1", 5)],
        [("1_2_ab", ⟨"1", "2", "waiting", "t0"⟩),
         ("3_1_cd", ⟨"3", "1", "waiting", "t1"⟩)], []⟩ "1").2 =
      (([("1_2_ab", ⟨"1", "2", "waiting", "t0"⟩),
         ("3_1_cd", ⟨"3", "1", "waiting", "t1"⟩)] :
          List (String × CallSession)).filter (fun p => p.2.from_ == "1")).map
        (fun p => (p.2.to_, Out.call_rejected p.1 "1" "Caller disconnected")) ∧
    (handleError ⟨[("1", 5)],
        [("1_2_ab", ⟨"1", "2", "waiting", "t0"⟩),
         ("3_1_cd", ⟨"3", "1", "waiting", "t1"⟩)], []⟩ "1").pending_calls =
      [("1_2_ab", ⟨"1", "2", "waiting", "t0"⟩), ("3_1_cd", ⟨"3", "1", "waiting", "t1"⟩)] ∧
    (handleError ⟨[("1", 5)],
        [("1_2_ab", ⟨"1", "2", "waiting", "t0"⟩),
         ("3_1_cd", ⟨"3", "1", "waiting", "t1"⟩)], []⟩ "1").user_notifications =
      ([] : List (String × List Out)) ∧
    dictGet (handleError ⟨[("1", 5)],
        [("1_2_ab", ⟨"1", "2", "waiting", "t0"⟩),
         ("3_1_cd", ⟨"3", "1", "waiting", "t1"⟩)], []⟩ "1").active_connections "1" =
      none :=
  disconnect_cleanup ⟨[("1", 5)],
    [("1_2_ab", ⟨"1", "2", "waiting", "t0"⟩),
     ("3_1_cd", ⟨"3", "1", "waiting", "t1"⟩)], []⟩ "1" (by decide)

/-- The queue shape after an offline `send_json` (helper shared by the
flush and routing theorems). -/
theorem deliver_offline_queue (st : ManagerState) (r : String) (m : Out)
    (hoff : dictGet st.active_connections r = none) :
    dictGet (deliver st r m).user_notifications r =
      some ((dictGet st.user_notifications r).getD [] ++ [m]) := by
  rw [deliver_offline m hoff]
  exact dictGet_set_self _ _ _

/-- C5: registering a channel for a user with a non-empty offline queue
delivers every queued event on the newly registered channel, in
original insertion order (the delivery log is exactly the queue, and
each send happens while the registry entry of the user is the new channel),
and leaves the queue empty afterwards. -/
theorem connect_flushes_queue (st : ManagerState) (ws : Nat) (uid : String)
    (q : List Out)
    (hq : dictGet st.user_notifications uid = some q) (_hne : q ≠ []) :
    (connect st ws uid).2 = q.map (fun e => (uid, e)) ∧
    dictGet (connect st ws uid).1.user_notifications uid = some [] ∧
    dictGet (connect st ws uid).1.active_connections uid = some ws := by
  unfold connect
  dsimp only []
  rw [hq]
  dsimp only []
  have hlive : dictGet
      (⟨dictSet st.active_connections uid ws, st.pending_calls,
        st.user_notifications⟩ : ManagerState).active_connections uid = some ws :=
    dictGet_set_self _ _ _
  rw [flushQueue_live q hlive]
  exact ⟨rfl, dictGet_set_self _ _ _, hlive⟩

/-- Witness for C5: "2" reconnects on channel 9 with two queued events;
both are flushed in order and the queue is reset. -/
theorem connect_flushes_queue_witness :
    (connect ⟨[], [], [("2", [Out.message "1" "hi" "t" true,
        Out.notification "1" "n" "t"])]⟩ 9 "2").2 =
      ([Out.message "1" "hi" "t" true, Out.notification "1" "n" "t"]).map
        (fun e => ("2", e)) ∧
    dictGet (connect ⟨[], [], [("2", [Out.message "1" "hi" "t" true,
        Out.notification "1" "n" "t"])]⟩ 9 "2").1.user_notifications "2" = some [] ∧
    dictGet (connect ⟨[], [], [("2", [Out.message "1" "hi" "t" true,
        Out.notification "1" "n" "t"])]⟩ 9 "2").1.active_connections "2" = some 9 :=
  connect_flushes_queue ⟨[], [], [("2", [Out.message "1" "hi" "t" true,
    Out.notification "1" "n" "t"])]⟩ 9 "2"
    [Out.message "1" "hi" "t" true, Out.notification "1" "n" "t"] rfl (by decide)

/-- C9: a `message` from `uid` to an offline `b` that is not a mutual
contact appends exactly two entries to the offline queue of `b` — the
`message` event followed by the non-contact `notification` event, in
that order — and those are also the only two deliveries the handler
performs. -/
theorem offline_nonmutual_two_entries (mdb : String → String → Bool)
    (un : String → String) (now suffix : String) (st : ManagerState)
    (uid b m : String) (data : Inbound)
    (hty : data.type = some "message") (hto : data.to_ = some b)
    (hmsg : data.message = some m)
    (hoff : dictGet st.active_connections b = none)
    (hmut : mdb b uid = false) :
    ∃ st', processEvent mdb un now suffix st uid data =
        some (st', [(b, Out.message uid m now false),
          (b, Out.notification uid ("New message from #" ++ un uid ++ ": " ++ m) now)]) ∧
      dictGet st'.user_notifications b =
        some ((dictGet st.user_notifications b).getD [] ++
          [Out.message uid m now false,
           Out.notification uid ("New message from #" ++ un uid ++ ": " ++ m) now]) := by
  rw [processEvent_message mdb un now suffix st uid data hty]
  unfold handleMessage
  rw [hto, hmsg]
  simp only [Option.pure_def, Option.bind_eq_bind, Option.some_bind]
  rw [hmut]
  rw [if_neg (by simp)]
  refine ⟨_, rfl, ?_⟩
  have h1 : (deliver st b (Out.message uid m now false)).active_connections =
      st.active_connections := deliver_active st b _
  have h2 : dictGet (deliver st b (Out.message uid m now false)).user_notifications b =
      some ((dictGet st.user_notifications b).getD [] ++ [Out.message uid m now false]) :=
    deliver_offline_queue st b _ hoff
  rw [deliver_offline_queue _ _ _ (by rw [h1]; exact hoff), h2]
  simp

/-- Witness for C9: "1" messages the offline non-contact "2" on an
empty manager state. -/
theorem offline_nonmutual_two_entries_witness :
    ∃ st', processEvent (fun _ _ => false) (fun u => u) "t" "s" ⟨[], [], []⟩ "1"
        { type := some "message", to_ := some "2", message := some "hi" } =
        some (st', [("2", Out.message "1" "hi" "t" false),
          ("2", Out.notification "1"
            ("New message from #" ++ (fun u : String => u) "1" ++ ": " ++ "hi") "t")]) ∧
      dictGet st'.user_notifications "2" =
        some ((dictGet ([] : List (String × List Out)) "2").getD [] ++
          [Out.message "1" "hi" "t" false,
           Out.notification "1"
             ("New message from #" ++ (fun u : String => u) "1" ++ ": " ++ "hi") "t"]) :=
  offline_nonmutual_two_entries (fun _ _ => false) (fun u => u) "t" "s"
    ⟨[], [], []⟩ "1" "2" "hi"
    { type := some "message", to_ := some "2", message := some "hi" }
    rfl rfl rfl rfl rfl

/-- C10: in every state reachable from the fresh manager through any
sequence of core entry points (connections, inbound events of all
kinds, graceful and error disconnects), every stored call session has
status "waiting": sessions are only ever created waiting by
`call_request`, and every other operation leaves sessions intact or
removes them outright. -/
theorem pending_calls_always_waiting (acts : List Action) : AllWaiting (run acts) :=
  foldl_allWaiting acts initialState (fun p hp => absurd hp (List.not_mem_nil p))

/-- Witness for C10 on a concrete action trace: connect, place a call,
accept it from the callee, then a graceful disconnect. -/
theorem pending_calls_always_waiting_witness :
    AllWaiting (run [Action.conn "1" 1,
      Action.event "1" { type := some "call_request", to_ := some "2" } false "u" "t" "s",
      Action.event "2" { type := some "call_accept", call_id := some "1_2_s" } false "u" "t" "s",
      Action.wsDisc "1"]) :=
  pending_calls_always_waiting _

end Site
